import Mathlib

/-!
Verification of the RepoAnalyzer pattern-recognition and scoring engine.

This file is a shallow embedding, in Lean 4, of the Python analysis services of
the repository:

* `src/backend/src/services/pattern_detectors/advanced_pattern_detector.py`
  (`AdvancedPatternDetector`),
* `src/backend/src/services/pattern_detector.py` (`PatternVisitor`,
  `analyze_patterns`),
* `src/backend/src/services/code_quality.py` (`CodeQualityService`),
* `src/backend/src/services/best_practices/best_practices_analyzer.py`
  (`BestPracticesAnalyzer`),
* `src/backend/src/services/documentation_analyzer.py`
  (`DocumentationAnalyzer`).

The Python `ast` module is modelled by a small inductive syntax-tree type that
covers exactly the node kinds these services inspect (`ClassDef`,
`FunctionDef`, `AsyncFunctionDef`, `Assign`, `AnnAssign`, `Import`,
`ImportFrom`, `If`, `While`, `For`, `Try`/`ExceptHandler`, `Expr` statements,
`BoolOp`, `Name`, string constants).  Function-argument annotations are
modelled as a presence flag on each argument, which is all the analyzers read
from them.  `ast.Match` (Python 3.10 match statements) and decorator lists are
not modelled; no analyzed predicate in this file depends on them.

Machine floats of the source are modelled as exact rationals; the decimal
literals below (`0.9`, `0.4`, …) are exact in `ℚ` and all source constants are
exactly representable, so no rounding behaviour is lost.
-/

set_option maxHeartbeats 1600000

namespace RepoAnalyzer

/-! ### Python-style string primitives

The analyzers use `str.strip`, `str.lower`, substring membership (`in`),
`str.startswith`, `'\n'.join` and `str.split('\n')`.  These are re-implemented
over `List Char` so that every definition in this file evaluates inside the
kernel.  `pyIsSpace` is the ASCII whitespace set of Python's `str.strip()`.
-/

def pyIsSpace (c : Char) : Bool :=
  c == ' ' || c == '\t' || c == '\n' || c == '\r' || c == '\x0b' || c == '\x0c'

/-- Python `s.strip()`. -/
def pyStrip (s : String) : String :=
  ⟨((s.toList.dropWhile pyIsSpace).reverse.dropWhile pyIsSpace).reverse⟩

/-- Python `s.lower()` (ASCII case folding, which is all the detectors meet). -/
def pyLower (s : String) : String := ⟨s.toList.map Char.toLower⟩

def startsAux : List Char → List Char → Bool
  | [], _ => true
  | _ :: _, [] => false
  | p :: ps, c :: cs => p == c && startsAux ps cs

def containsAux (pat : List Char) : List Char → Bool
  | [] => startsAux pat []
  | c :: cs => startsAux pat (c :: cs) || containsAux pat cs

/-- Python `pat in s` (contiguous substring test; `"" in s` is `True`). -/
def strContains (s pat : String) : Bool := containsAux pat.toList s.toList

/-- Python `s.startswith(pat)`. -/
def pyStartsWith (s pat : String) : Bool := startsAux pat.toList s.toList

def splitLinesAux (cur : List Char) : List Char → List String
  | [] => [⟨cur.reverse⟩]
  | c :: cs =>
      if c == '\n' then ⟨cur.reverse⟩ :: splitLinesAux [] cs
      else splitLinesAux (c :: cur) cs

/-- Python `s.split('\n')`. -/
def pySplitLines (s : String) : List String := splitLinesAux [] s.toList

/-- Python `'\n'.join(l)`. -/
def pyJoinLines (l : List String) : String :=
  ⟨((l.map String.toList).intersperse ['\n']).flatten⟩

/-! ### The syntax-tree model -/

/-- One positional parameter of a function (`ast.arg`): its name and whether it
carries a type annotation (`arg.annotation is not None`). -/
structure Arg where
  name : String
  annotated : Bool

/-- Expressions, restricted to the node kinds the analyzers inspect. -/
inductive Expr where
  | name (id : String)
  | constStr (s : String)
  | constNone
  | boolOp (values : List Expr)

/-- Statements, restricted to the node kinds the analyzers inspect.
`exceptHandler` models `ast.ExceptHandler`; a `tryStmt`'s `handlers` list is by
convention a list of `exceptHandler` nodes. -/
inductive Stmt where
  | functionDef (name : String) (args : List Arg) (body : List Stmt) (lineno : Nat)
  | asyncFunctionDef (name : String) (args : List Arg) (body : List Stmt) (lineno : Nat)
  | classDef (name : String) (bases : List Expr) (body : List Stmt) (lineno : Nat)
  | assign (targets : List Expr) (value : Expr)
  | annAssign (target : Expr) (value : Option Expr)
  | importStmt (names : List String)
  | importFrom (module : Option String) (names : List String)
  | ifStmt (test : Expr) (body : List Stmt) (orelse : List Stmt)
  | whileStmt (test : Expr) (body : List Stmt)
  | forStmt (body : List Stmt)
  | tryStmt (body : List Stmt) (handlers : List Stmt) (orelse : List Stmt) (finalbody : List Stmt)
  | exceptHandler (body : List Stmt)
  | exprStmt (value : Expr)
  | ret (value : Option Expr)
  | passStmt

/-- A module (`ast.Module`) is its list of top-level statements. -/
abbrev Module := List Stmt

/-- A node of the tree, as enumerated by `ast.walk` / `ast.NodeVisitor`. -/
inductive Node where
  | stmt (s : Stmt)
  | expr (e : Expr)

mutual

def exprSize : Expr → Nat
  | .name _ => 1
  | .constStr _ => 1
  | .constNone => 1
  | .boolOp vs => 1 + exprsSize vs

def exprsSize : List Expr → Nat
  | [] => 0
  | e :: es => exprSize e + exprsSize es

end

def optExprSize : Option Expr → Nat
  | some e => exprSize e
  | none => 0

mutual

def stmtSize : Stmt → Nat
  | .functionDef _ _ body _ => 1 + stmtsSize body
  | .asyncFunctionDef _ _ body _ => 1 + stmtsSize body
  | .classDef _ bases body _ => 1 + exprsSize bases + stmtsSize body
  | .assign targets value => 1 + exprsSize targets + exprSize value
  | .annAssign target value => 1 + exprSize target + optExprSize value
  | .importStmt _ => 1
  | .importFrom _ _ => 1
  | .ifStmt test body orelse => 1 + exprSize test + stmtsSize body + stmtsSize orelse
  | .whileStmt test body => 1 + exprSize test + stmtsSize body
  | .forStmt body => 1 + stmtsSize body
  | .tryStmt body handlers orelse finalbody =>
      1 + stmtsSize body + stmtsSize handlers + stmtsSize orelse + stmtsSize finalbody
  | .exceptHandler body => 1 + stmtsSize body
  | .exprStmt value => 1 + exprSize value
  | .ret value => 1 + optExprSize value
  | .passStmt => 1

def stmtsSize : List Stmt → Nat
  | [] => 0
  | s :: ss => stmtSize s + stmtsSize ss

end

def Node.size : Node → Nat
  | .stmt s => stmtSize s
  | .expr e => exprSize e

def optChildren : Option Expr → List Node
  | some e => [.expr e]
  | none => []

/-- The direct children of a node, in the field order used by
`ast.iter_child_nodes` (which drives both `ast.walk` and
`ast.NodeVisitor.generic_visit`). -/
def Node.children : Node → List Node
  | .expr (.boolOp vs) => vs.map Node.expr
  | .expr _ => []
  | .stmt (.functionDef _ _ body _) => body.map Node.stmt
  | .stmt (.asyncFunctionDef _ _ body _) => body.map Node.stmt
  | .stmt (.classDef _ bases body _) => bases.map Node.expr ++ body.map Node.stmt
  | .stmt (.assign targets value) => targets.map Node.expr ++ [.expr value]
  | .stmt (.annAssign target value) => .expr target :: optChildren value
  | .stmt (.importStmt _) => []
  | .stmt (.importFrom _ _) => []
  | .stmt (.ifStmt test body orelse) =>
      .expr test :: (body.map Node.stmt ++ orelse.map Node.stmt)
  | .stmt (.whileStmt test body) => .expr test :: body.map Node.stmt
  | .stmt (.forStmt body) => body.map Node.stmt
  | .stmt (.tryStmt body handlers orelse finalbody) =>
      body.map Node.stmt ++ handlers.map Node.stmt ++ orelse.map Node.stmt
        ++ finalbody.map Node.stmt
  | .stmt (.exceptHandler body) => body.map Node.stmt
  | .stmt (.exprStmt value) => [.expr value]
  | .stmt (.ret value) => optChildren value
  | .stmt .passStmt => []

theorem sum_map_expr (l : List Expr) :
    ((l.map Node.expr).map Node.size).sum = exprsSize l := by
  induction l with
  | nil => simp only [List.map_nil, List.sum_nil, exprsSize]
  | cons e es ih =>
      simp only [List.map_cons, List.sum_cons, exprsSize, Node.size, ih]

theorem sum_map_stmt (l : List Stmt) :
    ((l.map Node.stmt).map Node.size).sum = stmtsSize l := by
  induction l with
  | nil => simp only [List.map_nil, List.sum_nil, stmtsSize]
  | cons s ss ih =>
      simp only [List.map_cons, List.sum_cons, stmtsSize, Node.size, ih]

theorem sum_opt_children (v : Option Expr) :
    ((optChildren v).map Node.size).sum = optExprSize v := by
  cases v <;> simp [optChildren, optExprSize, Node.size]

/-- Every node is one bigger than the total size of its children; this makes
the fuel used by the traversals below exact. -/
theorem size_children (n : Node) :
    ((Node.children n).map Node.size).sum + 1 = Node.size n := by
  rcases n with s | e
  · cases s <;>
      simp only [Node.children, Node.size, stmtSize, List.map_append,
        List.sum_append, List.map_cons, List.sum_cons, List.map_nil,
        List.sum_nil, sum_map_stmt, sum_map_expr, sum_opt_children] <;> omega
  · cases e <;>
      simp only [Node.children, Node.size, exprSize, List.map_nil,
        List.sum_nil, sum_map_expr] <;> omega

/-- Breadth-first traversal worker.  Each step removes one node from the queue
and appends its children, so the summed `Node.size` of the queue falls by
exactly one per step; with fuel equal to that sum the recursion runs to the
empty queue (`walkQ_cons` below proves the defining BFS recurrence). -/
def walkAux : Nat → List Node → List Node
  | _, [] => []
  | 0, _ :: _ => []
  | Nat.succ fuel, n :: q => n :: walkAux fuel (q ++ Node.children n)

/-- `ast.walk`: breadth-first enumeration of a node queue. -/
def walkQ (q : List Node) : List Node := walkAux ((q.map Node.size).sum) q

theorem walkQ_cons (n : Node) (q : List Node) :
    walkQ (n :: q) = n :: walkQ (q ++ Node.children n) := by
  have hq : ((n :: q).map Node.size).sum
      = (((q ++ Node.children n)).map Node.size).sum + 1 := by
    have := size_children n
    have h2 : ((q ++ Node.children n).map Node.size).sum
        = (q.map Node.size).sum + ((Node.children n).map Node.size).sum := by
      simp [List.map_append, List.sum_append]
    simp only [List.map_cons, List.sum_cons, h2]
    omega
  unfold walkQ
  rw [hq]
  rfl

/-- Depth-first (preorder) traversal worker, with the same exact-fuel scheme
as `walkAux`; this is the visit order of `ast.NodeVisitor`. -/
def dfsAux : Nat → List Node → List Node
  | _, [] => []
  | 0, _ :: _ => []
  | Nat.succ fuel, n :: q => n :: dfsAux fuel (Node.children n ++ q)

def dfsQ (q : List Node) : List Node := dfsAux ((q.map Node.size).sum) q

theorem dfsQ_cons (n : Node) (q : List Node) :
    dfsQ (n :: q) = n :: dfsQ (Node.children n ++ q) := by
  have hq : ((n :: q).map Node.size).sum
      = (((Node.children n ++ q)).map Node.size).sum + 1 := by
    have := size_children n
    have h2 : ((Node.children n ++ q).map Node.size).sum
        = ((Node.children n).map Node.size).sum + (q.map Node.size).sum := by
      simp [List.map_append, List.sum_append]
    simp only [List.map_cons, List.sum_cons, h2]
    omega
  unfold dfsQ
  rw [hq]
  rfl

/-- `ast.walk(tree)` over a module.  The `Module` node itself is not listed:
none of the analyzers reacts to it (it is neither a class, an import, a
control-flow node nor a boolean operator). -/
def walkModule (m : Module) : List Node := walkQ (m.map Node.stmt)

/-- `ast.walk(node)` over a single statement (used for per-class and
per-function analysis; the node itself is included, as in Python). -/
def walkStmt (s : Stmt) : List Node := walkQ [Node.stmt s]

/-- `ast.NodeVisitor`'s depth-first preorder over a module. -/
def dfsModule (m : Module) : List Node := dfsQ (m.map Node.stmt)

/-! ### `AdvancedPatternDetector`
(`src/backend/src/services/pattern_detectors/advanced_pattern_detector.py`)
-/

/-- `PatternContext` dataclass (shared, field for field, by
`advanced_pattern_detector.py` and `pattern_detector.py`). -/
structure PatternContext where
  complexity : Nat
  dependencies : List String
  methods : List String
  attributes : List String
  relatedPatterns : List String
deriving Repr, DecidableEq

/-- `PatternMatch` dataclass (the advanced detector's `name` field; the basic
detector uses the same shape). -/
structure PatternMatch where
  name : String
  confidence : ℚ
  lineNumber : Nat
  context : PatternContext
deriving Repr, DecidableEq

/-- `_get_complexity` adds 1 for `If`/`While`/`For`/`ExceptHandler` nodes. -/
def isControlNode : Node → Bool
  | .stmt (.ifStmt _ _ _) => true
  | .stmt (.whileStmt _ _) => true
  | .stmt (.forStmt _) => true
  | .stmt (.exceptHandler _) => true
  | _ => false

/-- `_get_complexity` adds `len(values) - 1` for `BoolOp` nodes. -/
def boolOpExcess : Node → Nat
  | .expr (.boolOp vs) => vs.length - 1
  | _ => 0

/-- `AdvancedPatternDetector._get_complexity`: start from 1 and accumulate
over `ast.walk(node)`. -/
def getComplexity (n : Node) : Nat :=
  (walkQ [n]).foldl
    (fun complexity child =>
      if isControlNode child then complexity + 1
      else complexity + boolOpExcess child) 1

/-- `AdvancedPatternDetector._get_dependencies`: `Import` contributes every
alias name, `ImportFrom` contributes `f"{module}.{names[0]}"` (only the first
alias; a `from x import` with no names would raise `IndexError` in Python and
cannot be produced by the parser, so it is mapped to no entry). -/
def getDependencies (tree : Module) : List String :=
  (walkModule tree).foldr
    (fun n acc =>
      match n with
      | .stmt (.importStmt names) => names ++ acc
      | .stmt (.importFrom m names) =>
          match names with
          | n0 :: _ => ((match m with | some s => s | none => "None") ++ "." ++ n0) :: acc
          | [] => acc
      | _ => acc) []

/-- `AdvancedPatternDetector._get_methods`: names of the class body's direct
`FunctionDef` members (`ast.AsyncFunctionDef` is a distinct class in Python and
is not an instance of `ast.FunctionDef`, so async methods are not listed). -/
def getMethods (body : List Stmt) : List String :=
  body.filterMap fun s =>
    match s with
    | .functionDef n _ _ _ => some n
    | _ => none

/-- `AdvancedPatternDetector._get_attributes`: targets of direct `AnnAssign`
(single `Name` target) and `Assign` (all `Name` targets) members. -/
def getAttributes (body : List Stmt) : List String :=
  body.foldr
    (fun s acc =>
      match s with
      | .annAssign (.name i) _ => i :: acc
      | .assign targets _ =>
          (targets.filterMap fun t =>
            match t with
            | .name i => some i
            | _ => none) ++ acc
      | _ => acc) []

/-- A `ClassDef` node, seen through the fields every detector reads. -/
structure ClassInfo where
  name : String
  bases : List Expr
  body : List Stmt
  lineno : Nat

def ClassInfo.toStmt (c : ClassInfo) : Stmt :=
  .classDef c.name c.bases c.body c.lineno

def classOf : Node → Option ClassInfo
  | .stmt (.classDef nm bs bd ln) => some ⟨nm, bs, bd, ln⟩
  | _ => none

/-- The `ClassDef` nodes of `ast.walk(tree)`, in walk order. -/
def walkClasses (tree : Module) : List ClassInfo :=
  (walkModule tree).filterMap classOf

/-- `PatternContext` as the advanced detectors build it for a class node. -/
def mkAdvContext (tree : Module) (c : ClassInfo) (related : List String) :
    PatternContext :=
  { complexity := getComplexity (Node.stmt c.toStmt)
    dependencies := getDependencies tree
    methods := getMethods c.body
    attributes := getAttributes c.body
    relatedPatterns := related }

/-- `_detect_factory_pattern`: the class's `create`/`factory` methods. -/
def advFactoryMethods (c : ClassInfo) : List String :=
  c.body.filterMap fun s =>
    match s with
    | .functionDef n _ _ _ =>
        if strContains (pyLower n) "create" || strContains (pyLower n) "factory"
        then some n else none
    | _ => none

/-- `AdvancedPatternDetector._detect_factory_pattern`. -/
def detectFactoryAdv (tree : Module) : List PatternMatch :=
  (walkClasses tree).filterMap fun c =>
    if (advFactoryMethods c).length > 0 then
      let confidence : ℚ := min (0.7 + (advFactoryMethods c).length * 0.1) 0.95
      let confidence : ℚ :=
        if strContains (pyLower c.name) "factory" then min (confidence + 0.1) 0.95
        else confidence
      some { name := "factory", confidence := confidence, lineNumber := c.lineno
             context := mkAdvContext tree c ["builder", "abstract_factory"] }
    else none

/-- `_detect_singleton_pattern`: `any('_instance' in attr for attr in attributes)`. -/
def advHasInstanceAttr (c : ClassInfo) : Bool :=
  (getAttributes c.body).any fun attr => strContains attr "_instance"

/-- `_detect_singleton_pattern`: `any('get_instance' in method.lower() for
method in methods)`. -/
def advHasGetInstance (c : ClassInfo) : Bool :=
  (getMethods c.body).any fun m => strContains (pyLower m) "get_instance"

/-- `AdvancedPatternDetector._detect_singleton_pattern`. -/
def detectSingletonAdv (tree : Module) : List PatternMatch :=
  (walkClasses tree).filterMap fun c =>
    if advHasInstanceAttr c && advHasGetInstance c then
      some { name := "singleton", confidence := 0.9, lineNumber := c.lineno
             context := mkAdvContext tree c ["monostate"] }
    else none

def advHasNotify (c : ClassInfo) : Bool :=
  (getMethods c.body).any fun m => strContains (pyLower m) "notify"

def advHasObserversAttr (c : ClassInfo) : Bool :=
  (getAttributes c.body).any fun a => strContains (pyLower a) "observer"

def advHasAttach (c : ClassInfo) : Bool :=
  (getMethods c.body).any fun m =>
    strContains (pyLower m) "attach" || strContains (pyLower m) "subscribe"

def advHasUpdate (c : ClassInfo) : Bool :=
  (getMethods c.body).any fun m => strContains (pyLower m) "update"

/-- `AdvancedPatternDetector._detect_observer_pattern`. -/
def detectObserverAdv (tree : Module) : List PatternMatch :=
  let classes := walkClasses tree
  let subjectClasses := classes.filter fun c =>
    advHasNotify c || (advHasObserversAttr c && advHasAttach c)
  let observerClasses := classes.filter fun c =>
    advHasUpdate c || strContains (pyLower c.name) "observer"
  if !subjectClasses.isEmpty && !observerClasses.isEmpty then
    subjectClasses.map fun subject =>
      let confidence : ℚ := 0.8
      let confidence : ℚ :=
        if advHasNotify subject then min (confidence + 0.1) 0.95 else confidence
      let confidence : ℚ :=
        if advHasAttach subject then min (confidence + 0.05) 0.95 else confidence
      let confidence : ℚ :=
        if advHasObserversAttr subject then min (confidence + 0.05) 0.95 else confidence
      { name := "observer", confidence := confidence, lineNumber := subject.lineno
        context := mkAdvContext tree subject ["publisher_subscriber", "event_driven"] }
  else []

def advHasExecuteMethod (c : ClassInfo) : Bool :=
  (getMethods c.body).any fun m => strContains (pyLower m) "execute"

/-- `AdvancedPatternDetector._detect_strategy_pattern`: `'strategy' in
node.name.lower()`. -/
def advClassNameStrategy (c : ClassInfo) : Bool :=
  strContains (pyLower c.name) "strategy"

/-- `AdvancedPatternDetector._detect_strategy_pattern`. -/
def detectStrategyAdv (tree : Module) : List PatternMatch :=
  (walkClasses tree).filterMap fun c =>
    if advHasExecuteMethod c || advClassNameStrategy c then
      some { name := "strategy"
             confidence :=
               if advHasExecuteMethod c && advClassNameStrategy c then (0.8 : ℚ) else 0.6
             lineNumber := c.lineno
             context := mkAdvContext tree c ["state", "command"] }
    else none

/-- `AdvancedPatternDetector._detect_decorator_pattern`: `Name` bases only. -/
def advNameBases (c : ClassInfo) : List String :=
  c.bases.filterMap fun b =>
    match b with
    | .name i => some i
    | _ => none

/-- `AdvancedPatternDetector._detect_decorator_pattern`. -/
def detectDecoratorAdv (tree : Module) : List PatternMatch :=
  (walkClasses tree).filterMap fun c =>
    if (advNameBases c).length > 0
        && (getMethods c.body).any (fun m => strContains (pyLower m) "wrap") then
      some { name := "decorator", confidence := 0.8, lineNumber := c.lineno
             context := mkAdvContext tree c ["proxy", "adapter"] }
    else none

/-- `AdvancedPatternDetector._detect_command_pattern`: `'command' in
node.name.lower()`. -/
def advClassNameCommand (c : ClassInfo) : Bool :=
  strContains (pyLower c.name) "command"

/-- `AdvancedPatternDetector._detect_command_pattern`. -/
def detectCommandAdv (tree : Module) : List PatternMatch :=
  (walkClasses tree).filterMap fun c =>
    if advHasExecuteMethod c || advClassNameCommand c then
      some { name := "command"
             confidence :=
               if advHasExecuteMethod c && advClassNameCommand c then (0.8 : ℚ) else 0.6
             lineNumber := c.lineno
             context := mkAdvContext tree c ["strategy", "chain_of_responsibility"] }
    else none

/-- One registered detector, as invoked at the `analyze_file` boundary.  The
source calls each detector inside `try/except`; a detector that raises is
modelled as returning `Except.error` with the exception text. -/
abbrev Detector := Module → Except String (List PatternMatch)

/-- The body of `AdvancedPatternDetector.analyze_file`'s detector loop:
`matches = detector(tree); patterns.extend(matches)` with a per-detector
`except Exception` that logs and moves on. -/
def runDetectors (ds : List Detector) (tree : Module) : List PatternMatch :=
  ds.foldl
    (fun patterns d =>
      match d tree with
      | .ok ms => patterns ++ ms
      | .error _ => patterns) []

/-- The fixed `self.patterns` registry, in insertion order. -/
def advDetectors : List Detector :=
  [fun t => .ok (detectFactoryAdv t),
   fun t => .ok (detectSingletonAdv t),
   fun t => .ok (detectObserverAdv t),
   fun t => .ok (detectStrategyAdv t),
   fun t => .ok (detectDecoratorAdv t),
   fun t => .ok (detectCommandAdv t)]

/-- `AdvancedPatternDetector.analyze_file`, after the file has been read and
parsed (file-system access and `SyntaxError` re-raising live outside the
detector loop and are modelled at the caller, `_analyze_patterns`). -/
def analyzeFileAdv (tree : Module) : List PatternMatch :=
  runDetectors advDetectors tree

/-! ### `PatternVisitor` / `analyze_patterns`
(`src/backend/src/services/pattern_detector.py`)

`PatternVisitor` is an `ast.NodeVisitor`: a depth-first preorder traversal
that accumulates `self.imports` (from `visit_Import` / `visit_ImportFrom`) and
appends matches in `visit_ClassDef` *before* descending into the class body.
It is modelled as a left fold of `visitorStep` over the preorder node list
`dfsModule tree`.
-/

/-- `PatternVisitor._is_singleton`: an `Assign` target named exactly
`_instance` and a `FunctionDef` named exactly `__new__`. -/
def isSingletonBasic (c : ClassInfo) : Bool :=
  (c.body.any fun s =>
    match s with
    | .assign targets _ =>
        targets.any fun t =>
          match t with
          | .name i => i == "_instance"
          | _ => false
    | _ => false)
  && (c.body.any fun s =>
    match s with
    | .functionDef n _ _ _ => n == "__new__"
    | _ => false)

/-- `PatternVisitor._is_factory`: a `create` method must exist, and some
`create` method must contain an `If` node (`ast.Match` is not modelled; see
the file header). -/
def isFactoryBasic (c : ClassInfo) : Bool :=
  (c.body.any fun s =>
    match s with
    | .functionDef n _ _ _ => strContains (pyLower n) "create"
    | _ => false)
  && (c.body.any fun s =>
    match s with
    | .functionDef n args body ln =>
        strContains (pyLower n) "create"
          && (walkStmt (.functionDef n args body ln)).any fun nd =>
               match nd with
               | .stmt (.ifStmt _ _ _) => true
               | _ => false
    | _ => false)

/-- `PatternVisitor._is_observer`: an `Assign` target containing `observer`,
or a method named `notify` or `update`. -/
def isObserverBasic (c : ClassInfo) : Bool :=
  (c.body.any fun s =>
    match s with
    | .assign targets _ =>
        targets.any fun t =>
          match t with
          | .name i => strContains (pyLower i) "observer"
          | _ => false
    | _ => false)
  || (c.body.any fun s =>
    match s with
    | .functionDef n _ _ _ => n == "notify" || n == "update"
    | _ => false)

/-- `PatternVisitor._is_strategy`: a method named `execute`/`apply`/`algorithm`
or a base class literally named `ABC`. -/
def isStrategyBasic (c : ClassInfo) : Bool :=
  (c.body.any fun s =>
    match s with
    | .functionDef n _ _ _ => n == "execute" || n == "apply" || n == "algorithm"
    | _ => false)
  || (c.bases.any fun b =>
    match b with
    | .name i => i == "ABC"
    | _ => false)

/-- `PatternVisitor._is_command`: a method named exactly `execute`, or an
`Assign` target containing `receiver`. -/
def isCommandBasic (c : ClassInfo) : Bool :=
  (c.body.any fun s =>
    match s with
    | .functionDef n _ _ _ => n == "execute"
    | _ => false)
  || (c.body.any fun s =>
    match s with
    | .assign targets _ =>
        targets.any fun t =>
          match t with
          | .name i => strContains (pyLower i) "receiver"
          | _ => false
    | _ => false)

/-- The `methods` list `visit_ClassDef` collects (direct `FunctionDef`s). -/
def basicMethods (c : ClassInfo) : List String :=
  c.body.filterMap fun s =>
    match s with
    | .functionDef n _ _ _ => some n
    | _ => none

/-- The `attributes` list `visit_ClassDef` collects (direct `Assign` `Name`
targets; `AnnAssign` is not collected here, unlike the advanced detector). -/
def basicAttributes (c : ClassInfo) : List String :=
  c.body.foldr
    (fun s acc =>
      match s with
      | .assign targets _ =>
          (targets.filterMap fun t =>
            match t with
            | .name i => some i
            | _ => none) ++ acc
      | _ => acc) []

/-- The matches `visit_ClassDef` appends for one class, in source order
(singleton, factory, observer, strategy, command), given the imports recorded
so far. -/
def basicEmit (imports : List String) (c : ClassInfo) : List PatternMatch :=
  (if isSingletonBasic c then
    [{ name := "singleton", confidence := 0.95, lineNumber := c.lineno
       context := ⟨2, imports, basicMethods c, basicAttributes c, ["monostate"]⟩ }]
   else [])
  ++ (if isFactoryBasic c then
    [{ name := "factory", confidence := 0.9, lineNumber := c.lineno
       context := ⟨3, imports, basicMethods c, basicAttributes c,
         ["abstract_factory", "builder"]⟩ }]
   else [])
  ++ (if isObserverBasic c then
    [{ name := "observer", confidence := 0.95, lineNumber := c.lineno
       context := ⟨2, imports, basicMethods c, basicAttributes c,
         ["publisher_subscriber", "event_driven"]⟩ }]
   else [])
  ++ (if isStrategyBasic c then
    [{ name := "strategy", confidence := 0.8, lineNumber := c.lineno
       context := ⟨1, imports, basicMethods c, basicAttributes c,
         ["state", "command"]⟩ }]
   else [])
  ++ (if isCommandBasic c then
    [{ name := "command", confidence := 0.6, lineNumber := c.lineno
       context := ⟨1, imports, basicMethods c, basicAttributes c,
         ["strategy", "chain_of_responsibility"]⟩ }]
   else [])

/-- `visit_Import` / `visit_ImportFrom`: how one visited node updates
`self.imports`.  `visit_ImportFrom` guards on `if node.module:`, so a
relative import (`module is None`) records nothing; it records every alias. -/
def updImports (imports : List String) : Node → List String
  | .stmt (.importStmt names) => imports ++ names
  | .stmt (.importFrom m names) =>
      match m with
      | some mod =>
          if mod.isEmpty then imports
          else imports ++ names.map fun nm => mod ++ "." ++ nm
      | none => imports
  | _ => imports

/-- The matches emitted when one node is visited. -/
def emitAt (imports : List String) : Node → List PatternMatch
  | .stmt (.classDef nm bs bd ln) => basicEmit imports ⟨nm, bs, bd, ln⟩
  | _ => []

/-- One step of the visitor state (`self.imports`, `self.patterns`). -/
def visitorStep (st : List String × List PatternMatch) (n : Node) :
    List String × List PatternMatch :=
  (updImports st.1 n, st.2 ++ emitAt st.1 n)

/-- The full visitor run: `visitor.visit(tree)` followed by reading
`visitor.patterns`. -/
def basicPatterns (tree : Module) : List PatternMatch :=
  ((dfsModule tree).foldl visitorStep ([], [])).2

/-- The `ClassDef` nodes in visitor (preorder DFS) order. -/
def dfsClasses (tree : Module) : List ClassInfo :=
  (dfsModule tree).filterMap classOf

/-- `analyze_patterns(code)`: parse, visit, return the collected patterns; the
surrounding `try/except Exception` returns `[]` on any internal failure.
Parsing (`ast.parse`) is the Python runtime's parser and is passed in as a
fallible function. -/
def analyzePatterns (parse : String → Except String Module) (code : String) :
    List PatternMatch :=
  match parse code with
  | .ok tree => basicPatterns tree
  | .error _ => []

/-! ### `DocumentationAnalyzer._analyze_file`
(`src/backend/src/services/documentation_analyzer.py`)
-/

/-- `DocCoverage` dataclass. -/
structure DocCoverage where
  filePath : String
  totalItems : Nat
  documentedItems : Nat
  typeHintCoverage : ℚ
  exampleCount : Nat
  todosCount : Nat
  missingDocs : List String
deriving Repr, DecidableEq

/-- `ast.get_docstring(node)` before cleaning: the string constant that is the
first statement of the body, if any. -/
def getDocstring (body : List Stmt) : Option String :=
  match body with
  | .exprStmt (.constStr s) :: _ => some s
  | _ => none

/-- Truthiness of `ast.get_docstring(node)`.  `get_docstring` applies
`inspect.cleandoc`, which deletes only whitespace, so the cleaned string is
non-empty (truthy) exactly when the raw docstring has a non-whitespace
character. -/
def docTruthy (body : List Stmt) : Bool :=
  match getDocstring body with
  | some s => !(pyStrip s).isEmpty
  | none => false

/-- `docstring and ">>>" in docstring`.  `cleandoc` deletes only leading
indentation and blank lines, never characters inside a line, so it neither
creates nor destroys a `>>>` occurrence; the test is made on the raw string. -/
def docHasExample (body : List Stmt) : Bool :=
  match getDocstring body with
  | some s => !(pyStrip s).isEmpty && strContains s ">>>"
  | none => false

/-- Per-function `type_hint_coverage`:
`args_with_hints / total_args if total_args > 0 else 1.0`. -/
def hintFraction (args : List Arg) : ℚ :=
  if args.length > 0 then
    ((args.filter fun a => a.annotated).length : ℚ) / args.length
  else 1.0

/-- One entry of the analyzer's `items` list: `(name, has_docs,
type_hint_coverage)` plus the function's contribution to `example_count`
(classes contribute `0.0` coverage and, because the example check sits inside
the `isinstance(node, (FunctionDef, AsyncFunctionDef))` branch, no examples). -/
structure DocItem where
  name : String
  hasDocs : Bool
  hintCov : ℚ
  exampleAdd : Nat
deriving Repr, DecidableEq

/-- The item produced when `ast.walk` yields a documentable node. -/
def docItemOf : Node → Option DocItem
  | .stmt (.functionDef nm args body _) =>
      some ⟨nm, docTruthy body, hintFraction args,
        if docHasExample body then 1 else 0⟩
  | .stmt (.asyncFunctionDef nm args body _) =>
      some ⟨nm, docTruthy body, hintFraction args,
        if docHasExample body then 1 else 0⟩
  | .stmt (.classDef nm _ body _) => some ⟨nm, docTruthy body, 0, 0⟩
  | _ => none

/-- `os.path.basename`. -/
def baseName (path : String) : String :=
  match (path.splitOn "/").getLast? with
  | some s => s
  | none => path

/-- One position of the `re.findall(r'#\s*TODO:', content)` scan: does a match
start here?  (`#`, then greedy whitespace, then literal `TODO:`.) -/
def todoTail : List Char → Bool
  | c :: rest =>
      if pyIsSpace c then todoTail rest
      else startsAux "TODO:".toList (c :: rest)
  | [] => false

def todoAt : List Char → Bool
  | '#' :: rest => todoTail rest
  | _ => false

def countTodosAux : List Char → Nat
  | [] => 0
  | c :: rest => (if todoAt (c :: rest) then 1 else 0) + countTodosAux rest

/-- `todos_count = len(re.findall(r'#\s*TODO:', content))`.  A match contains
no `#` after its first character, so matches never overlap and the
non-overlapping `findall` count equals the count of match start positions. -/
def countTodos (content : String) : Nat := countTodosAux content.toList

/-- `DocumentationAnalyzer._analyze_file`, after reading and parsing the file:
the module is always the first item; every walked `FunctionDef` /
`AsyncFunctionDef` / `ClassDef` adds one item; the final
`type_hint_coverage` is the mean of the per-item coverages (`items` is never
empty because of the module item, so the `if items else 0` guard of the source
is dead). -/
def analyzeFileDoc (filePath : String) (tree : Module) (content : String) :
    DocCoverage :=
  let moduleTruthy := docTruthy tree
  let moduleExample := docHasExample tree
  let defItems := (walkModule tree).filterMap docItemOf
  let totalItems := 1 + defItems.length
  { filePath := filePath
    totalItems := totalItems
    documentedItems :=
      (if moduleTruthy then 1 else 0) + (defItems.filter fun it => it.hasDocs).length
    typeHintCoverage := ((defItems.map fun it => it.hintCov).sum + 0) / (totalItems : ℚ)
    exampleCount :=
      (if moduleExample then 1 else 0) + (defItems.map fun it => it.exampleAdd).sum
    todosCount := countTodos content
    missingDocs :=
      (if moduleTruthy then []
       else ["Module docstring missing in " ++ baseName filePath])
      ++ (defItems.filter fun it => !it.hasDocs).map
          fun it => "Missing docstring for " ++ it.name }

/-! ### `CodeQualityService`
(`src/backend/src/services/code_quality.py`)
-/

/-- `FileMetrics` dataclass.  `loc`/`sloc`/`comments`/`multi`/`blank` come from
`radon.raw.analyze`, `complexity` from radon's `ComplexityVisitor` and
`maintainability` from `radon.metrics.mi_visit`; radon is an external library,
so per-file analysis is passed to `analyze_repository` as a function. -/
structure FileMetrics where
  path : String
  loc : Nat
  sloc : Nat
  comments : Nat
  multi : Nat
  blank : Nat
  complexity : ℚ
  maintainability : ℚ
  duplicates : List (Nat × Nat)
deriving Repr, DecidableEq

/-- `CodeQualityService._find_duplicates`'s `code_lines`: strip every line of
`content.split('\n')`, keep `(original_index, line)` for the non-empty lines
not starting with `#`. -/
def codeLines (content : String) : List (Nat × String) :=
  (((pySplitLines content).map pyStrip).enum).filter fun p =>
    !p.2.isEmpty && !pyStartsWith p.2 "#"

/-- `'\n'.join(line for _, line in code_lines[i:i + window_size])`. -/
def dupBlock (cls : List (Nat × String)) (i : Nat) : String :=
  pyJoinLines (((cls.drop i).take 3).map Prod.snd)

/-- `code_lines[i][0] + 1` (1-based start line of the window at `i`). -/
def dupStart (cls : List (Nat × String)) (i : Nat) : Nat :=
  (cls.getD i (0, "")).1 + 1

/-- `code_lines[i + window_size - 1][0] + 1` (1-based end line). -/
def dupEnd (cls : List (Nat × String)) (i : Nat) : Nat :=
  (cls.getD (i + 2) (0, "")).1 + 1

/-- `CodeQualityService._find_duplicates` with its fixed `window_size = 3`:
for every window pair `i < j` (windows disjoint in `code_lines` index space)
whose joined stripped content coincides, append the line range of occurrence
`i` and then the line range of occurrence `j`. -/
def findDuplicates (content : String) : List (Nat × Nat) :=
  let cls := codeLines content
  let numWindows := cls.length + 1 - 3
  (List.range numWindows).foldr
    (fun i acc =>
      (if (pyStrip (dupBlock cls i)).isEmpty then []
       else
        (List.range' (i + 3) (numWindows - (i + 3))).foldr
          (fun j acc2 =>
            (if dupBlock cls i == dupBlock cls j then
              [(dupStart cls i, dupEnd cls i), (dupStart cls j, dupEnd cls j)]
             else []) ++ acc2) [])
      ++ acc) []

/-- `issues_count` of `_calculate_overall_metrics`. -/
structure IssueCounts where
  highComplexity : Nat
  lowMaintainability : Nat
  duplicateCode : Nat
deriving Repr, DecidableEq

/-- `AnalysisMetrics` schema instance built by `_calculate_overall_metrics`. -/
structure AnalysisMetrics where
  codeQualityScore : ℚ
  maintainabilityScore : ℚ
  complexityScore : ℚ
  documentationScore : ℚ
  bestPracticesScore : ℚ
  issuesCount : IssueCounts
  recommendations : List String
deriving Repr, DecidableEq

/-- `CodeQualityService._calculate_overall_metrics` (thresholds
`COMPLEXITY_THRESHOLD = 10`, `MIN_COMMENT_RATIO = 0.1`; called only with a
non-empty file list). -/
def calculateOverallMetrics (fileMetrics : List FileMetrics) : AnalysisMetrics :=
  let totalSloc : ℚ := (fileMetrics.map fun m => (m.sloc : ℚ)).sum
  let totalComments : ℚ := (fileMetrics.map fun m => (m.comments : ℚ)).sum
  let avgComplexity : ℚ :=
    (fileMetrics.map fun m => m.complexity).sum / (fileMetrics.length : ℚ)
  let avgMaintainability : ℚ :=
    (fileMetrics.map fun m => m.maintainability).sum / (fileMetrics.length : ℚ)
  let complexityScore : ℚ := max 0 (min 100 (100 - avgComplexity * 5))
  let maintainabilityScore := avgMaintainability
  let commentRatio : ℚ := if totalSloc > 0 then totalComments / totalSloc else 0
  let documentationScore : ℚ := min 100 ((commentRatio / 0.1) * 100)
  let issues : IssueCounts :=
    { highComplexity := (fileMetrics.filter fun m => m.complexity > 10).length
      lowMaintainability := (fileMetrics.filter fun m => m.maintainability < 65).length
      duplicateCode := (fileMetrics.map fun m => m.duplicates.length / 2).sum }
  let recommendations :=
    (if avgComplexity > 10 then
      ["Consider breaking down complex functions to improve maintainability"] else [])
    ++ (if commentRatio < 0.1 then
      ["Add more documentation to improve code clarity"] else [])
    ++ (if issues.duplicateCode > 0 then
      ["Reduce code duplication by extracting common functionality"] else [])
    ++ (if avgMaintainability < 65 then
      ["Improve code maintainability by simplifying complex logic and adding documentation"]
     else [])
  let recommendations :=
    if recommendations.isEmpty then
      ["Consider adding more inline comments to improve code clarity"]
    else recommendations
  { codeQualityScore :=
      complexityScore * 0.3 + maintainabilityScore * 0.3 + documentationScore * 0.4
    maintainabilityScore := maintainabilityScore
    complexityScore := complexityScore
    documentationScore := documentationScore
    bestPracticesScore := maintainabilityScore * 0.8
    issuesCount := issues
    recommendations := recommendations }

/-- One discovered source file, as handed to the per-file analyzers. -/
structure PyFile where
  path : String
  content : String

/-- `CodeQualityService.analyze_repository`: the discovered `*.py` list is the
input (`rglob` is file-system I/O); an empty list raises
`AnalysisError("No Python files found in repository")`, per-file analysis runs
sequentially and aborts on the first failure, and the surrounding
`except Exception` re-raises everything as
`AnalysisError(f"Failed to analyze repository: {e}")`. -/
def codeQualityAnalyzeRepository
    (analyzeFile : PyFile → Except String FileMetrics)
    (pythonFiles : List PyFile) : Except String AnalysisMetrics :=
  let inner : Except String AnalysisMetrics :=
    if pythonFiles.isEmpty then .error "No Python files found in repository"
    else do
      let fileMetrics ← pythonFiles.mapM analyzeFile
      pure (calculateOverallMetrics fileMetrics)
  match inner with
  | .ok m => .ok m
  | .error e => .error ("Failed to analyze repository: " ++ e)

/-! ### `BestPracticesAnalyzer`
(`src/backend/src/services/best_practices/best_practices_analyzer.py`)
-/

/-- The `impact` labels produced by `_assess_pattern_impact` (the scoring
table in `_calculate_scores` is keyed by exactly these three strings). -/
inductive Impact where
  | high
  | medium
  | low
deriving Repr, DecidableEq

/-- The `context` dictionary as read by `_calculate_implementation_score`
through `dict.get` with defaults (`complexity` defaults to 10, `dependencies`
to `[]`, `scope` to absent). -/
structure BPContext where
  complexity : Option Nat
  dependencies : Option (List String)
  scope : Option String
deriving Repr, DecidableEq

/-- One pattern dictionary of `results['patterns']`, restricted to the fields
the scoring and recommendation code reads. -/
structure BPPattern where
  name : String
  file : String
  line : Nat
  confidence : ℚ
  category : String
  impact : Impact
  context : BPContext
deriving Repr, DecidableEq

/-- `_get_pattern_category`: the fixed name-to-category table, defaulting to
`'other'`. -/
def getPatternCategory (patternName : String) : String :=
  if patternName == "factory" then "design"
  else if patternName == "singleton" then "design"
  else if patternName == "observer" then "design"
  else if patternName == "strategy" then "design"
  else if patternName == "facade" then "design"
  else if patternName == "adapter" then "design"
  else if patternName == "chain_of_responsibility" then "design"
  else if patternName == "caching" then "performance"
  else if patternName == "pooling" then "performance"
  else if patternName == "lazy_loading" then "performance"
  else if patternName == "authentication" then "security"
  else if patternName == "authorization" then "security"
  else if patternName == "validation" then "security"
  else if patternName == "decorator" then "maintainability"
  else if patternName == "composite" then "maintainability"
  else if patternName == "proxy" then "maintainability"
  else "other"

/-- `_assess_pattern_impact`. -/
def assessPatternImpact (confidence : ℚ) : Impact :=
  if confidence > 0.8 then .high
  else if confidence > 0.6 then .medium
  else .low

/-- `_calculate_implementation_score`. -/
def calculateImplementationScore (p : BPPattern) : ℚ :=
  let complexity := p.context.complexity.getD 10
  let score : ℚ :=
    if complexity < 5 then 0.4 else if complexity < 10 then 0.2 else 0
  let dependencies := (p.context.dependencies.getD []).length
  let score : ℚ :=
    score + (if dependencies < 3 then 0.3 else if dependencies < 6 then 0.2 else 0)
  let score : ℚ :=
    score + (if p.context.scope == some "class" then 0.3
             else if p.context.scope == some "module" then 0.2 else 0)
  min 1.0 score

/-- The `{'high': 1.0, 'medium': 0.7, 'low': 0.4}` table of
`_calculate_scores`. -/
def impactScoreTable : Impact → ℚ
  | .high => 1.0
  | .medium => 0.7
  | .low => 0.4

/-- Per-pattern score accumulated by `_calculate_scores`:
`confidence*0.4 + impact*0.3 + implementation*0.3`. -/
def bpPatternScore (p : BPPattern) : ℚ :=
  p.confidence * 0.4 + impactScoreTable p.impact * 0.3
    + calculateImplementationScore p * 0.3

/-- The per-category loop body of `_calculate_scores`: skipped categories
(`continue`) keep their initial `0.0`. -/
def calcCategoryScore (ps : List BPPattern) : ℚ :=
  if ps.isEmpty then 0.0
  else
    let categoryScore := ps.foldl (fun acc p => acc + bpPatternScore p) 0.0
    min 100.0 ((categoryScore / (ps.length : ℚ)) * 100)

/-- The four scores `_calculate_scores` returns. -/
structure Scores where
  designScore : ℚ
  performanceScore : ℚ
  securityScore : ℚ
  maintainabilityScore : ℚ
deriving Repr, DecidableEq

/-- `BestPracticesAnalyzer._calculate_scores`: early return of all zeros when
no pattern was matched at all; otherwise the patterns are grouped by their
`category` field into the four fixed buckets (other categories are dropped)
and each non-empty bucket is scored. -/
def calculateScores (patterns : List BPPattern) : Scores :=
  if patterns.isEmpty then ⟨0.0, 0.0, 0.0, 0.0⟩
  else
    { designScore := calcCategoryScore (patterns.filter fun p => p.category == "design")
      performanceScore :=
        calcCategoryScore (patterns.filter fun p => p.category == "performance")
      securityScore :=
        calcCategoryScore (patterns.filter fun p => p.category == "security")
      maintainabilityScore :=
        calcCategoryScore (patterns.filter fun p => p.category == "maintainability") }

/-- A recorded per-file issue of `_analyze_patterns`. -/
structure BPIssue where
  file : String
  error : String
deriving Repr, DecidableEq

/-- `BestPracticesAnalyzer._analyze_patterns`: iterate the discovered files;
a file whose analysis raises is recorded in `issues` and skipped, every other
file's pattern dictionaries are appended.  Per-file analysis (detector run
plus pattern-dictionary construction) is passed in as a fallible function. -/
def bpAnalyzePatterns
    (analyzeFile : PyFile → Except String (List BPPattern))
    (files : List PyFile) : List BPPattern × List BPIssue :=
  files.foldl
    (fun acc f =>
      match analyzeFile f with
      | .ok ps => (acc.1 ++ ps, acc.2)
      | .error e => (acc.1, acc.2 ++ [⟨f.path, e⟩]))
    ([], [])

/-- The result dictionary of `BestPracticesAnalyzer.analyze_repository`.
`errorMsg` models the `results['error']` key set by the outer
`except Exception` handler. -/
structure BPResults where
  designScore : ℚ
  performanceScore : ℚ
  securityScore : ℚ
  maintainabilityScore : ℚ
  patterns : List BPPattern
  recommendations : List String
  errorMsg : Option String

/-- `BestPracticesAnalyzer.analyze_repository`.  There is no zero-file check:
with no `*.py` file the per-file loop simply never runs.  Every step after
`_analyze_patterns` is total (and `_analyze_patterns` catches its own per-file
errors), so the outer `except Exception` never fires and `results['error']`
is never set.  `_generate_recommendations` builds strings from Python-set
iteration (whose order is hash-randomized across processes), so the text
generator is passed in as a function; nothing proved below depends on it. -/
def bestPracticesAnalyzeRepository
    (analyzeFile : PyFile → Except String (List BPPattern))
    (generateRecommendations : List BPPattern → Scores → List String)
    (files : List PyFile) : BPResults :=
  let pr := bpAnalyzePatterns analyzeFile files
  let scores := calculateScores pr.1
  { designScore := scores.designScore
    performanceScore := scores.performanceScore
    securityScore := scores.securityScore
    maintainabilityScore := scores.maintainabilityScore
    patterns := pr.1
    recommendations := generateRecommendations pr.1 scores
    errorMsg := none }

/-! ### Generic list lemmas used by the claim theorems -/

theorem foldl_append_acc {A B : Type} (l : List A) (f : A → List B) (acc : List B) :
    l.foldl (fun a x => a ++ f x) acc = acc ++ l.flatMap f := by
  induction l generalizing acc with
  | nil => simp
  | cons x t ih => simp [ih]

theorem foldl_add_acc {A : Type} (l : List A) (f : A → ℚ) (a : ℚ) :
    l.foldl (fun acc x => acc + f x) a = a + (l.map f).sum := by
  induction l generalizing a with
  | nil => simp
  | cons x t ih => simp [ih]; ring

theorem foldr_append_nil {A B : Type} (l : List A) (f : A → List B) :
    l.foldr (fun a acc => f a ++ acc) [] = l.flatMap f := by
  induction l with
  | nil => simp
  | cons x t ih => simp [ih]

theorem filterMap_if_map {A B C : Type} (l : List A) (P : A → Bool) (f : A → B)
    (g : B → C) (h : A → C) (hfg : ∀ a, P a = true → g (f a) = h a) :
    ((l.filterMap fun a => if P a then some (f a) else none).map g)
      = (l.filter P).map h := by
  induction l with
  | nil => simp
  | cons x t ih =>
      by_cases hx : P x
      · simp [hx, ih, hfg x hx]
      · simp [hx, ih]

theorem flatMap_pair_length {A : Type} (l : List (A × A)) :
    (l.flatMap fun p => [p.1, p.2]).length = 2 * l.length := by
  induction l with
  | nil => simp
  | cons x t ih => simp [ih]; ring

/-! ### Claim C7: the cyclomatic-complexity formula -/

theorem boolOpExcess_of_control (n : Node) (h : isControlNode n = true) :
    boolOpExcess n = 0 := by
  rcases n with s | e
  · cases s <;> simp_all [isControlNode, boolOpExcess]
  · cases e <;> simp_all [isControlNode, boolOpExcess]

theorem foldl_complexity (l : List Node) (a : Nat) :
    (l.foldl
      (fun complexity child =>
        if isControlNode child then complexity + 1
        else complexity + boolOpExcess child) a)
      = a + l.countP isControlNode + (l.map boolOpExcess).sum := by
  induction l generalizing a with
  | nil => simp
  | cons x t ih =>
      by_cases hx : isControlNode x
      · simp [hx, ih, List.countP_cons, boolOpExcess_of_control x hx]
        omega
      · simp [hx, ih, List.countP_cons]
        omega

/-- The number of operands of each `BoolOp` chain in a walked node list. -/
def boolOpArity : Node → Option Nat
  | .expr (.boolOp vs) => some vs.length
  | _ => none

theorem map_excess_eq_arity (l : List Node) :
    (l.map boolOpExcess).sum
      = ((l.filterMap boolOpArity).map fun len => len - 1).sum := by
  induction l with
  | nil => simp
  | cons x t ih =>
      rcases x with s | e
      · cases s <;> simp [boolOpExcess, boolOpArity, ih]
      · cases e <;> simp [boolOpExcess, boolOpArity, ih]

/-- C7 (confirmed).  For every node — in particular every `ClassDef` or
`FunctionDef` node — `AdvancedPatternDetector._get_complexity` returns 1 plus
the number of `If`/`While`/`For`/`ExceptHandler` nodes in the node's subtree
plus, for each `BoolOp` chain in the subtree, its number of operand values
minus 1. -/
theorem C7_complexity_formula (n : Node) :
    getComplexity n =
      1 + (walkQ [n]).countP isControlNode
        + (((walkQ [n]).filterMap boolOpArity).map fun len => len - 1).sum := by
  unfold getComplexity
  rw [foldl_complexity, map_excess_eq_arity]

/-! ### Claim C4: duplicate windows are reported in matched pairs -/

/-- The duplicate detector's matching window pairs, written the way the spec
describes them: one `(start, end)` range per occurrence, collected as a pair
per detected duplication. -/
def duplicatePairs (content : String) : List ((Nat × Nat) × (Nat × Nat)) :=
  let cls := codeLines content
  let numWindows := cls.length + 1 - 3
  (List.range numWindows).flatMap fun i =>
    if (pyStrip (dupBlock cls i)).isEmpty then []
    else
      (List.range' (i + 3) (numWindows - (i + 3))).flatMap fun j =>
        if dupBlock cls i == dupBlock cls j then
          [((dupStart cls i, dupEnd cls i), (dupStart cls j, dupEnd cls j))]
        else []

/-- C4 (confirmed).  `_find_duplicates` slides a 3-line window over the
stripped, non-empty, non-comment lines and, for every pair of identical
windows it reports, appends both occurrences' `(start_line, end_line)` ranges:
its output is exactly the pair list flattened two ranges at a time, and in
particular has even length — ranges always come in matched pairs, never only
the second occurrence. -/
theorem C4_duplicates_paired (content : String) :
    findDuplicates content
      = (duplicatePairs content).flatMap (fun p => [p.1, p.2])
    ∧ (findDuplicates content).length = 2 * (duplicatePairs content).length := by
  have key : findDuplicates content
      = (duplicatePairs content).flatMap (fun p => [p.1, p.2]) := by
    unfold findDuplicates duplicatePairs
    rw [foldr_append_nil]
    rw [List.flatMap_assoc]
    apply List.flatMap_congr
    intro i _
    by_cases hempty : (pyStrip (dupBlock (codeLines content) i)).isEmpty
    · simp [hempty]
    · simp only [hempty, if_false, Bool.false_eq_true]
      rw [foldr_append_nil, List.flatMap_assoc]
      apply List.flatMap_congr
      intro j _
      by_cases heq : dupBlock (codeLines content) i == dupBlock (codeLines content) j
      · simp [heq]
      · simp [heq]
  exact ⟨key, by rw [key, flatMap_pair_length]⟩

/-! ### Claim C2: the category scoring formula -/

/-- The four score categories (`design_score` … `maintainability_score`). -/
inductive Category where
  | design
  | performance
  | security
  | maintainability
deriving Repr, DecidableEq

/-- The Python category name keying the `results['patterns']` dictionaries. -/
def Category.pyName : Category → String
  | .design => "design"
  | .performance => "performance"
  | .security => "security"
  | .maintainability => "maintainability"

/-- The field of the `scores` dictionary for one category. -/
def scoreOf (s : Scores) : Category → ℚ
  | .design => s.designScore
  | .performance => s.performanceScore
  | .security => s.securityScore
  | .maintainability => s.maintainabilityScore

/-- The claim's impact-weight table `{high: 1.0, medium: 0.7, low: 0.4}`. -/
def claimImpactWeight : Impact → ℚ
  | .high => 1.0
  | .medium => 0.7
  | .low => 0.4

/-- The claim's implementation score: `+0.4` for complexity below 5 (`+0.2`
below 10), `+0.3` for fewer than 3 dependencies (`+0.2` for fewer than 6),
and `+0.3`/`+0.2` for class/module scope — stated as a plain sum, without the
`min(1.0, …)` cap of the source (which is inert: the sum never exceeds 1). -/
def claimImplementationScore (p : BPPattern) : ℚ :=
  (if p.context.complexity.getD 10 < 5 then 0.4
   else if p.context.complexity.getD 10 < 10 then 0.2 else 0)
  + (if (p.context.dependencies.getD []).length < 3 then 0.3
     else if (p.context.dependencies.getD []).length < 6 then 0.2 else 0)
  + (if p.context.scope == some "class" then 0.3
     else if p.context.scope == some "module" then 0.2 else 0)

/-- The claim's per-pattern score
`0.4×confidence + 0.3×impact_weight + 0.3×implementation_score`. -/
def claimPatternScore (p : BPPattern) : ℚ :=
  0.4 * p.confidence + 0.3 * claimImpactWeight p.impact
    + 0.3 * claimImplementationScore p

theorem impactWeight_eq_claim (i : Impact) :
    impactScoreTable i = claimImpactWeight i := by
  cases i <;> rfl

theorem implementationScore_eq_claim (p : BPPattern) :
    calculateImplementationScore p = claimImplementationScore p := by
  have h : claimImplementationScore p ≤ 1.0 := by
    unfold claimImplementationScore
    split_ifs <;> norm_num
  simp only [calculateImplementationScore, claimImplementationScore] at h ⊢
  rw [min_eq_right h]

theorem patternScore_eq_claim (p : BPPattern) :
    bpPatternScore p = claimPatternScore p := by
  unfold bpPatternScore claimPatternScore
  rw [implementationScore_eq_claim, impactWeight_eq_claim]
  ring

theorem calcCategoryScore_eq_claim (ps : List BPPattern) :
    calcCategoryScore ps =
      if ps.isEmpty then 0.0
      else min 100.0 (100 * ((ps.map claimPatternScore).sum / (ps.length : ℚ))) := by
  unfold calcCategoryScore
  by_cases h : ps.isEmpty
  · simp [h]
  · simp only [h, if_false, Bool.false_eq_true]
    rw [foldl_add_acc]
    rw [List.map_congr_left fun p _ => patternScore_eq_claim p]
    ring_nf

/-- C2 (confirmed).  For each of the four categories, the category score of
`_calculate_scores` equals
`min(100, 100 × average over that category's matched patterns of
(0.4×confidence + 0.3×impact_weight + 0.3×implementation_score))`, with
`impact_weight ∈ {high: 1.0, medium: 0.7, low: 0.4}` and the implementation
score rewarding complexity below 5/10, fewer than 3/6 dependencies, and
class/module scope; a category with zero matched patterns scores exactly
`0.0` (both through the all-patterns-empty early return and through the
per-category `continue`). -/
theorem C2_category_score (patterns : List BPPattern) (cat : Category) :
    scoreOf (calculateScores patterns) cat =
      (if (patterns.filter fun p => p.category == Category.pyName cat).isEmpty then 0.0
       else
         min 100.0
           (100 *
             (((patterns.filter fun p => p.category == Category.pyName cat).map
                 claimPatternScore).sum
               / (((patterns.filter fun p => p.category == Category.pyName cat).length : ℚ))))) := by
  unfold calculateScores
  by_cases hall : patterns.isEmpty
  · have : patterns = [] := List.isEmpty_iff.mp hall
    subst this
    cases cat <;> simp [scoreOf]
  · simp only [hall, if_false, Bool.false_eq_true]
    cases cat
    · simpa [scoreOf, Category.pyName] using
        calcCategoryScore_eq_claim (patterns.filter fun p => p.category == "design")
    · simpa [scoreOf, Category.pyName] using
        calcCategoryScore_eq_claim (patterns.filter fun p => p.category == "performance")
    · simpa [scoreOf, Category.pyName] using
        calcCategoryScore_eq_claim (patterns.filter fun p => p.category == "security")
    · simpa [scoreOf, Category.pyName] using
        calcCategoryScore_eq_claim
          (patterns.filter fun p => p.category == "maintainability")

/-! ### Claim C8: a failing detector is isolated at the invocation boundary -/

/-- The matches one registered detector contributes: its result list, or
nothing when it raised. -/
def detectorOutput (d : Detector) (tree : Module) : List PatternMatch :=
  match d tree with
  | .ok ms => ms
  | .error _ => []

theorem runDetectors_flatMap (ds : List Detector) (tree : Module) :
    runDetectors ds tree = ds.flatMap fun d => detectorOutput d tree := by
  unfold runDetectors
  have hstep :
      (fun (patterns : List PatternMatch) (d : Detector) =>
        match d tree with
        | .ok ms => patterns ++ ms
        | .error _ => patterns)
      = fun patterns d => patterns ++ detectorOutput d tree := by
    funext patterns d
    unfold detectorOutput
    cases d tree <;> simp
  rw [hstep, foldl_append_acc]
  simp

/-- C8 (confirmed).  If one detector raises while analyzing a file, the
exception is caught at the detector-invocation boundary of `analyze_file`:
that detector contributes no matches, while the matches of every detector
before and after it are still returned — the loop's result is exactly the
concatenation of the surviving detectors' results, so neither the file's
analysis nor the run fails. -/
theorem C8_detector_isolation (xs ys : List Detector) (bad : Detector)
    (tree : Module) (e : String) (h : bad tree = .error e) :
    runDetectors (xs ++ bad :: ys) tree
      = runDetectors xs tree ++ runDetectors ys tree := by
  rw [runDetectors_flatMap, runDetectors_flatMap, runDetectors_flatMap]
  rw [List.flatMap_append, List.flatMap_cons]
  have hbad : detectorOutput bad tree = [] := by
    unfold detectorOutput
    rw [h]
  rw [hbad]
  simp

/-- Witness for C8 at a concrete input: with the factory detector, a raising
detector, and the command detector registered, the raising detector is
dropped and the other two detectors' matches are still returned. -/
theorem C8_detector_isolation_witness :
    runDetectors
      [fun t => .ok (detectFactoryAdv t),
       fun _ => .error "detector blew up",
       fun t => .ok (detectCommandAdv t)]
      [Stmt.classDef "OrderCommand" []
        [Stmt.functionDef "execute" [⟨"self", false⟩] [Stmt.passStmt] 2] 1]
      = runDetectors [fun t => .ok (detectFactoryAdv t)]
          [Stmt.classDef "OrderCommand" []
            [Stmt.functionDef "execute" [⟨"self", false⟩] [Stmt.passStmt] 2] 1]
        ++ runDetectors [fun t => .ok (detectCommandAdv t)]
            [Stmt.classDef "OrderCommand" []
              [Stmt.functionDef "execute" [⟨"self", false⟩] [Stmt.passStmt] 2] 1] :=
  C8_detector_isolation
    [fun t => .ok (detectFactoryAdv t)]
    [fun t => .ok (detectCommandAdv t)]
    (fun _ => .error "detector blew up")
    [Stmt.classDef "OrderCommand" []
      [Stmt.functionDef "execute" [⟨"self", false⟩] [Stmt.passStmt] 2] 1]
    "detector blew up" rfl

/-! ### Claim C10: `analyze_patterns` is total -/

/-- C10 (confirmed).  The public entry point `analyze_patterns` always returns
a list of `PatternMatch` values: when parsing (or anything inside the `try`)
fails, the `except Exception` handler returns the empty list, and when parsing
succeeds the visitor's matches are returned. -/
theorem C10_analyze_patterns_total (parse : String → Except String Module)
    (code : String) :
    (∀ e, parse code = .error e → analyzePatterns parse code = [])
    ∧ (∀ tree, parse code = .ok tree
        → analyzePatterns parse code = basicPatterns tree) := by
  constructor
  · intro e he
    unfold analyzePatterns
    rw [he]
  · intro tree ht
    unfold analyzePatterns
    rw [ht]

/-- Witness for C10 at a concrete input: a parser failing with a syntax error
(as `ast.parse` does on `"def ("`) makes `analyze_patterns` return `[]`. -/
theorem C10_analyze_patterns_total_witness :
    analyzePatterns (fun _ => .error "invalid syntax") "def (" = [] :=
  (C10_analyze_patterns_total (fun _ => .error "invalid syntax") "def (").1
    "invalid syntax" rfl

/-! ### The visitor's emission, factored for reasoning

`basicPatterns` is a left fold of `visitorStep`; `emitAll` names what the fold
appends, so that membership in the visitor's output can be traced back to the
class node that emitted it.
-/

def emitAll (imports : List String) : List Node → List PatternMatch
  | [] => []
  | n :: ns => emitAt imports n ++ emitAll (updImports imports n) ns

theorem visitor_foldl (ns : List Node) (imports : List String)
    (acc : List PatternMatch) :
    (ns.foldl visitorStep (imports, acc)).2 = acc ++ emitAll imports ns := by
  induction ns generalizing imports acc with
  | nil => simp [emitAll]
  | cons n t ih =>
      simp only [List.foldl_cons, visitorStep]
      rw [ih]
      simp [emitAll, List.append_assoc]

theorem emitAll_filter_proj (sel : String) (conf : ℚ) (pred : ClassInfo → Bool)
    (hsel : ∀ imports c,
      (((basicEmit imports c).filter fun m => m.name == sel).map
          fun m => (m.confidence, m.lineNumber))
        = if pred c then [(conf, c.lineno)] else [])
    (ns : List Node) (imports : List String) :
    (((emitAll imports ns).filter fun m => m.name == sel).map
        fun m => (m.confidence, m.lineNumber))
      = ((ns.filterMap classOf).filter pred).map fun c => (conf, c.lineno) := by
  induction ns generalizing imports with
  | nil => simp [emitAll]
  | cons n t ih =>
      simp only [emitAll, List.filter_append, List.map_append]
      rcases n with s | e
      · cases s
        case classDef nm bs bd ln =>
          simp only [emitAt, classOf, List.filterMap_cons]
          rw [hsel]
          by_cases hp : pred ⟨nm, bs, bd, ln⟩
          · simp [hp, List.filter_cons, ih]
          · simp [hp, List.filter_cons, ih]
        all_goals simp [emitAt, classOf, ih]
      · simp [emitAt, classOf, ih]

theorem basicEmit_filter_singleton (imports : List String) (c : ClassInfo) :
    (((basicEmit imports c).filter fun m => m.name == "singleton").map
        fun m => (m.confidence, m.lineNumber))
      = if isSingletonBasic c then [((0.95 : ℚ), c.lineno)] else [] := by
  unfold basicEmit
  by_cases h1 : isSingletonBasic c <;>
  by_cases h2 : isFactoryBasic c <;>
  by_cases h3 : isObserverBasic c <;>
  by_cases h4 : isStrategyBasic c <;>
  by_cases h5 : isCommandBasic c <;>
    simp [h1, h2, h3, h4, h5, List.filter_append]

theorem basicEmit_filter_command (imports : List String) (c : ClassInfo) :
    (((basicEmit imports c).filter fun m => m.name == "command").map
        fun m => (m.confidence, m.lineNumber))
      = if isCommandBasic c then [((0.6 : ℚ), c.lineno)] else [] := by
  unfold basicEmit
  by_cases h1 : isSingletonBasic c <;>
  by_cases h2 : isFactoryBasic c <;>
  by_cases h3 : isObserverBasic c <;>
  by_cases h4 : isStrategyBasic c <;>
  by_cases h5 : isCommandBasic c <;>
    simp [h1, h2, h3, h4, h5, List.filter_append]

/-! ### Claim C1: the singleton detectors -/

/-- The singleton condition exactly as claim C1 states it: an attribute whose
name contains `_instance`, and a method named `__new__` or whose name contains
`get_instance`. -/
def claimedSingletonCond (c : ClassInfo) : Bool :=
  ((getAttributes c.body).any fun attr => strContains attr "_instance")
  && ((getMethods c.body).any fun m => m == "__new__" || strContains m "get_instance")

/-- A class with an `_instance`-like attribute and a `__new__` method (but no
`get_instance`-named method): the claimed condition holds for it. -/
def singletonProbe : Module :=
  [Stmt.classDef "Config" []
    [Stmt.assign [Expr.name "_instances"] Expr.constNone,
     Stmt.functionDef "__new__" [⟨"cls", false⟩] [Stmt.passStmt] 3] 1]

/-- Counterexample to C1 as stated: on `singletonProbe` the claimed condition
is true (attribute `_instances` contains `_instance`, method `__new__`), yet
the advanced detector emits no singleton match (it requires a
`get_instance`-named method, not `__new__`) and the basic detector emits none
either (it requires the attribute to be named exactly `_instance`, and
`_instances` is not). -/
theorem C1_singleton_counterexample :
    claimedSingletonCond ⟨"Config", [],
      [Stmt.assign [Expr.name "_instances"] Expr.constNone,
       Stmt.functionDef "__new__" [⟨"cls", false⟩] [Stmt.passStmt] 3], 1⟩ = true
    ∧ detectSingletonAdv singletonProbe = []
    ∧ (basicPatterns singletonProbe).filter (fun m => m.name == "singleton") = [] :=
  ⟨by decide, rfl, rfl⟩

/-- C1 (corrected).  What the two singleton detectors actually emit:
the advanced detector emits one `singleton` match of confidence 0.9 per walked
class having an attribute containing `_instance` AND a method containing
`get_instance` (case-insensitively) — a `__new__` method does not count;
the basic detector emits one `singleton` match of confidence 0.95 per visited
class having an `Assign` attribute named exactly `_instance` AND a method
named exactly `__new__` — a `get_instance` method does not count.  In both
detectors the attribute condition alone emits nothing (structural AND), and
every emitted confidence lies in the claimed `[0.9, 0.95]` band. -/
theorem C1_singleton_amended (tree : Module) :
    ((detectSingletonAdv tree).map fun m => (m.name, m.confidence, m.lineNumber))
      = (((walkClasses tree).filter fun c =>
            advHasInstanceAttr c && advHasGetInstance c).map
          fun c => ("singleton", (0.9 : ℚ), c.lineno))
    ∧ (((basicPatterns tree).filter fun m => m.name == "singleton").map
          fun m => (m.confidence, m.lineNumber))
      = (((dfsClasses tree).filter isSingletonBasic).map
          fun c => ((0.95 : ℚ), c.lineno)) := by
  constructor
  · unfold detectSingletonAdv
    exact filterMap_if_map _ _ _ _ _ fun c hc => rfl
  · unfold basicPatterns dfsClasses dfsModule
    rw [visitor_foldl]
    simp only [List.nil_append]
    exact emitAll_filter_proj "singleton" 0.95 isSingletonBasic
      basicEmit_filter_singleton _ _

/-! ### Claim C5: the command detectors -/

/-- Claim C5's two conditions: a method named `execute`, and an attribute
whose name contains `receiver`; the claim asserts a match whenever either
holds, with confidence 0.8 when both hold and 0.6 otherwise. -/
def claimedCommandBoth (c : ClassInfo) : Bool :=
  ((getMethods c.body).any fun m => m == "execute")
  && ((getAttributes c.body).any fun a => strContains a "receiver")

/-- A class with a method named `execute` AND an attribute containing
`receiver` (name `Invoker`, which does not contain `command`). -/
def commandProbe : Module :=
  [Stmt.classDef "Invoker" []
    [Stmt.functionDef "execute" [⟨"self", false⟩] [Stmt.passStmt] 2,
     Stmt.assign [Expr.name "receiver_obj"] Expr.constNone] 1]

/-- Counterexample to C5 as stated: on `commandProbe` both claimed conditions
hold, so the claim predicts confidence 0.8 — but the advanced detector's second
condition is the class *name* containing `command` (not a `receiver`
attribute), so it emits 0.6, and the basic detector always emits 0.6. -/
theorem C5_command_counterexample :
    claimedCommandBoth ⟨"Invoker", [],
      [Stmt.functionDef "execute" [⟨"self", false⟩] [Stmt.passStmt] 2,
       Stmt.assign [Expr.name "receiver_obj"] Expr.constNone], 1⟩ = true
    ∧ ((detectCommandAdv commandProbe).map fun m => m.confidence) = [0.6]
    ∧ (((basicPatterns commandProbe).filter fun m => m.name == "command").map
        fun m => m.confidence) = [0.6] :=
  ⟨by decide, rfl, rfl⟩

/-- C5 (corrected).  What the two command detectors actually emit: the
advanced detector emits one `command` match per walked class having a method
containing `execute` OR a class name containing `command`, with confidence 0.8
exactly when both hold and 0.6 otherwise (a `receiver` attribute plays no
role); the basic detector emits one `command` match per visited class having a
method named exactly `execute` OR an `Assign` attribute containing `receiver`,
always with confidence 0.6 (never 0.8). -/
theorem C5_command_amended (tree : Module) :
    ((detectCommandAdv tree).map fun m => (m.name, m.confidence, m.lineNumber))
      = (((walkClasses tree).filter fun c =>
            advHasExecuteMethod c || advClassNameCommand c).map
          fun c => ("command",
            if advHasExecuteMethod c && advClassNameCommand c then (0.8 : ℚ) else 0.6,
            c.lineno))
    ∧ (((basicPatterns tree).filter fun m => m.name == "command").map
          fun m => (m.confidence, m.lineNumber))
      = (((dfsClasses tree).filter isCommandBasic).map
          fun c => ((0.6 : ℚ), c.lineno)) := by
  constructor
  · unfold detectCommandAdv
    exact filterMap_if_map _ _ _ _ _ fun c hc => rfl
  · unfold basicPatterns dfsClasses dfsModule
    rw [visitor_foldl]
    simp only [List.nil_append]
    exact emitAll_filter_proj "command" 0.6 isCommandBasic
      basicEmit_filter_command _ _

/-! ### Claims C6 and C9: documentation coverage details -/

/-- The positional-argument lists of the walked function nodes (sync and
async); classes and the module do not appear here. -/
def fnArgsOf : Node → Option (List Arg)
  | .stmt (.functionDef _ args _ _) => some args
  | .stmt (.asyncFunctionDef _ args _ _) => some args
  | _ => none

/-- The bodies of the walked function nodes (sync and async). -/
def fnBodyOf : Node → Option (List Stmt)
  | .stmt (.functionDef _ _ body _) => some body
  | .stmt (.asyncFunctionDef _ _ body _) => some body
  | _ => none

theorem docItems_hintCov_sum (l : List Node) :
    ((l.filterMap docItemOf).map fun it => it.hintCov).sum
      = ((l.filterMap fnArgsOf).map hintFraction).sum := by
  induction l with
  | nil => simp
  | cons n t ih =>
      rcases n with s | e
      · cases s <;> simp [docItemOf, fnArgsOf, ih]
      · cases e <;> simp [docItemOf, fnArgsOf, ih]

theorem docItems_example_sum (l : List Node) :
    ((l.filterMap docItemOf).map fun it => it.exampleAdd).sum
      = (l.filterMap fnBodyOf).countP docHasExample := by
  induction l with
  | nil => simp
  | cons n t ih =>
      rcases n with s | e
      · cases s <;>
          simp [docItemOf, fnBodyOf, ih, List.countP_cons, Nat.add_comm]
      · cases e <;> simp [docItemOf, fnBodyOf, ih]

/-- The fraction claim C6 describes: the average, over the file's functions,
of the share of parameters carrying a type annotation, a zero-parameter
function counting as fully covered (1.0); a file with no functions is given
coverage 0 (the claim leaves this case unstated and it plays no role in the
counterexample). -/
def claimedTypeHintCoverage (tree : Module) : ℚ :=
  let fns := (walkModule tree).filterMap fnArgsOf
  if fns.isEmpty then 0
  else ((fns.map hintFraction).sum) / (fns.length : ℚ)

/-- A file with a single fully annotated one-parameter function and no module
docstring. -/
def hintProbe : Module := [Stmt.functionDef "f" [⟨"x", true⟩] [Stmt.passStmt] 1]

/-- Counterexample to C6 as stated: on `hintProbe` every function parameter is
annotated, so the claimed coverage is 1.0 — but `_analyze_file` divides the
summed per-item coverages by the number of ALL documentable items, and the
module item (coverage 0) is always counted, giving (0 + 1)/2 = 0.5. -/
theorem C6_type_hint_counterexample :
    claimedTypeHintCoverage hintProbe = 1
    ∧ (analyzeFileDoc "module.py" hintProbe "").typeHintCoverage = 1 / 2
    ∧ ((1 : ℚ) / 2) ≠ 1 := by
  refine ⟨?_, ?_, by norm_num⟩
  · have h : (walkModule hintProbe).filterMap fnArgsOf = [[⟨"x", true⟩]] := rfl
    unfold claimedTypeHintCoverage
    rw [h]
    norm_num [hintFraction]
  · have h : (walkModule hintProbe).filterMap docItemOf
        = [⟨"f", false, hintFraction [⟨"x", true⟩], 0⟩] := rfl
    unfold analyzeFileDoc
    rw [h]
    norm_num [hintFraction]

/-- C6 (corrected).  `DocCoverage.type_hint_coverage` is NOT the fraction of
function parameters carrying annotations: it is the sum, over the file's
functions, of the per-function annotated-parameter fraction (`1.0` for a
zero-parameter function), divided by one plus the number of walked
classes-and-functions — the module item and every class item enter the
denominator with coverage 0 and dilute the average. -/
theorem C6_type_hint_amended (filePath : String) (tree : Module)
    (content : String) :
    (analyzeFileDoc filePath tree content).typeHintCoverage
      = (((walkModule tree).filterMap fnArgsOf).map hintFraction).sum
          / ((1 + ((walkModule tree).filterMap docItemOf).length : ℕ) : ℚ) := by
  unfold analyzeFileDoc
  simp only [add_zero]
  rw [docItems_hintCov_sum]

/-- A file whose only documentable items are the module (no docstring) and one
class whose docstring contains a `>>>` interactive example. -/
def exampleProbe : Module :=
  [Stmt.classDef "Cache" []
    [Stmt.exprStmt (Expr.constStr "Usage: >>> Cache().get(1)"),
     Stmt.functionDef "get" [⟨"self", false⟩, ⟨"key", false⟩] [Stmt.passStmt] 4] 1]

/-- Counterexample to C9 as stated: on `exampleProbe` one documentable item (a
class) has a docstring containing `>>>`, yet `example_count` stays 0 — the
`>>>` check sits inside the `isinstance(node, (FunctionDef,
AsyncFunctionDef))` branch of `_analyze_file`, so class docstrings are never
counted. -/
theorem C9_example_count_counterexample :
    strContains "Usage: >>> Cache().get(1)" ">>>" = true
    ∧ (analyzeFileDoc "module.py" exampleProbe "").documentedItems = 1
    ∧ (analyzeFileDoc "module.py" exampleProbe "").exampleCount = 0 :=
  ⟨by decide, by decide, by decide⟩

/-- C9 (corrected).  `DocCoverage.example_count` counts the `>>>` marker only
in the module docstring and in the docstrings of walked functions (sync and
async); a class docstring containing `>>>` is not counted. -/
theorem C9_example_count_amended (filePath : String) (tree : Module)
    (content : String) :
    (analyzeFileDoc filePath tree content).exampleCount
      = (if docHasExample tree then 1 else 0)
        + ((walkModule tree).filterMap fnBodyOf).countP docHasExample := by
  simp only [analyzeFileDoc]
  rw [docItems_example_sum]

/-! ### Claim C3: zero discovered Python files -/

/-- C3 (corrected, for the code-quality entry point).  When file discovery
yields zero Python files, `CodeQualityService.analyze_repository` raises
`AnalysisError` whose message (after the outer handler's re-wrap) contains
`"No Python files found"`, and never a successful report; but
`BestPracticesAnalyzer.analyze_repository`, which has no zero-file check,
returns an ordinary non-error result with all four scores 0.0 and no
patterns. -/
theorem C3_no_files_amended
    (analyzeFileQ : PyFile → Except String FileMetrics)
    (analyzeFileBP : PyFile → Except String (List BPPattern))
    (generateRecommendations : List BPPattern → Scores → List String)
    (files : List PyFile) (h : files = []) :
    codeQualityAnalyzeRepository analyzeFileQ files
      = .error ("Failed to analyze repository: "
          ++ "No Python files found in repository")
    ∧ strContains ("Failed to analyze repository: "
          ++ "No Python files found in repository") "No Python files found" = true
    ∧ (bestPracticesAnalyzeRepository analyzeFileBP generateRecommendations
        files).errorMsg = none
    ∧ (bestPracticesAnalyzeRepository analyzeFileBP generateRecommendations
        files).designScore = 0.0
    ∧ (bestPracticesAnalyzeRepository analyzeFileBP generateRecommendations
        files).performanceScore = 0.0
    ∧ (bestPracticesAnalyzeRepository analyzeFileBP generateRecommendations
        files).securityScore = 0.0
    ∧ (bestPracticesAnalyzeRepository analyzeFileBP generateRecommendations
        files).maintainabilityScore = 0.0
    ∧ (bestPracticesAnalyzeRepository analyzeFileBP generateRecommendations
        files).patterns = [] := by
  subst h
  exact ⟨rfl, by decide, rfl, rfl, rfl, rfl, rfl, rfl⟩

/-- Witness for C3's amended statement at the empty file list with concrete
per-file analyzers and recommendation generator. -/
theorem C3_no_files_witness :
    codeQualityAnalyzeRepository (fun _ => .error "radon failed") []
      = .error ("Failed to analyze repository: "
          ++ "No Python files found in repository")
    ∧ strContains ("Failed to analyze repository: "
          ++ "No Python files found in repository") "No Python files found" = true
    ∧ (bestPracticesAnalyzeRepository (fun _ => .ok []) (fun _ _ => [])
        []).errorMsg = none
    ∧ (bestPracticesAnalyzeRepository (fun _ => .ok []) (fun _ _ => [])
        []).designScore = 0.0
    ∧ (bestPracticesAnalyzeRepository (fun _ => .ok []) (fun _ _ => [])
        []).performanceScore = 0.0
    ∧ (bestPracticesAnalyzeRepository (fun _ => .ok []) (fun _ _ => [])
        []).securityScore = 0.0
    ∧ (bestPracticesAnalyzeRepository (fun _ => .ok []) (fun _ _ => [])
        []).maintainabilityScore = 0.0
    ∧ (bestPracticesAnalyzeRepository (fun _ => .ok []) (fun _ _ => [])
        []).patterns = [] :=
  C3_no_files_amended (fun _ => .error "radon failed") (fun _ => .ok [])
    (fun _ _ => []) [] rfl

/-- Counterexample to C3 as stated: the best-practices analysis run on a
repository with zero Python files does not fail — it returns an
empty-but-successful report (no error entry, all scores 0.0, no patterns,
and, with the trivial generator, no recommendations). -/
theorem C3_no_files_counterexample :
    (bestPracticesAnalyzeRepository (fun _ => .ok []) (fun _ _ => [])
      []).errorMsg = none
    ∧ (bestPracticesAnalyzeRepository (fun _ => .ok []) (fun _ _ => [])
        []).designScore = 0.0
    ∧ (bestPracticesAnalyzeRepository (fun _ => .ok []) (fun _ _ => [])
        []).performanceScore = 0.0
    ∧ (bestPracticesAnalyzeRepository (fun _ => .ok []) (fun _ _ => [])
        []).securityScore = 0.0
    ∧ (bestPracticesAnalyzeRepository (fun _ => .ok []) (fun _ _ => [])
        []).maintainabilityScore = 0.0
    ∧ (bestPracticesAnalyzeRepository (fun _ => .ok []) (fun _ _ => [])
        []).patterns = []
    ∧ (bestPracticesAnalyzeRepository (fun _ => .ok []) (fun _ _ => [])
        []).recommendations = [] :=
  ⟨rfl, rfl, rfl, rfl, rfl, rfl, rfl⟩

end RepoAnalyzer
